import Mathlib

/-!
Shallow embedding of the SuperWorld Proof-of-Place scoring core
(src/lib/scoring/scoringEngine.ts, src/lib/analyzers/{textAnalyzer,
timeAnalyzer, spamAnalyzer}.ts and the ImageAnalyzer in src/unnamed/part_003),
together with theorems settling the frozen claims about that core.

Modelling conventions
- All JavaScript numbers are embedded as exact rationals; the analyzer
  outputs are fixed decimal constants and sums/products of them, so exact
  rational arithmetic mirrors the source formulas.
- Strings are embedded as Lean strings over their character lists; the
  regular expressions of the source are embedded as left-to-right,
  non-overlapping scanners with JavaScript global-match semantics, ASCII
  character classes.
- Mutable class-level Maps become explicit association-list state threaded
  through the analyzer functions; each stateful analyzer returns its result
  together with the updated state.
- JavaScript Date values are embedded as epoch milliseconds; the locale
  hour-of-day function and the calendar computation of "one year ago" are
  supplied by a TimeEnv environment, since both are services of the JS Date
  library, not of this repository.
-/

namespace ProofOfPlace

/-! ### Character classes (ASCII fragments of the JS regex classes) -/

/-- ASCII whitespace, the fragment of the JS regex class backslash-s
relevant to the embedded scanners. -/
def isWs (c : Char) : Bool :=
  c = ' ' || c = '\t' || c = '\n' || c = '\r' || c = '\x0b' || c = '\x0c'

/-- The JS regex word class: ASCII letters, digits and underscore. -/
def isWordChar (c : Char) : Bool :=
  c.isAlpha || c.isDigit || c = '_'

/-- JS String.prototype.toLowerCase restricted to ASCII. -/
def jsLowerChar (c : Char) : Char :=
  if 'A' ≤ c ∧ c ≤ 'Z' then Char.ofNat (c.toNat + 32) else c

/-- Lower-case a string character by character (ASCII). -/
def jsLower (s : String) : String :=
  String.mk (s.toList.map jsLowerChar)

/-! ### Substring containment (JS String.prototype.includes) -/

/-- Does `pat` occur at the head of `l`? -/
def headMatches : List Char → List Char → Bool
  | [], _ => true
  | _ :: _, [] => false
  | p :: ps, c :: cs => p = c && headMatches ps cs

/-- Does `pat` occur anywhere in `l` (JS includes semantics; the empty
pattern occurs in every string)? -/
def containsSub (l pat : List Char) : Bool :=
  match l with
  | [] => pat.isEmpty
  | _ :: cs => headMatches pat l || containsSub cs pat

/-- JS `hay.includes(needle)`. -/
def strIncludes (hay needle : String) : Bool :=
  containsSub hay.toList needle.toList

/-! ### Splitting -/

/-- Maximal runs of characters satisfying `p`, in order (accumulator form). -/
def runsBy (p : Char → Bool) : List Char → List Char → List (List Char)
  | [], acc => if acc.isEmpty then [] else [acc.reverse]
  | c :: cs, acc =>
    if p c then runsBy p cs (c :: acc)
    else if acc.isEmpty then runsBy p cs [] else acc.reverse :: runsBy p cs []

/-- JS `s.split(/\s+/)`: the maximal non-whitespace runs, plus a leading
empty string when the text begins with whitespace and a trailing empty
string when it ends with whitespace; the empty string splits to itself. -/
def jsSplitWs (s : String) : List String :=
  match s.toList with
  | [] => [""]
  | c :: rest =>
    let cs := c :: rest
    let core := (runsBy (fun ch => !isWs ch) cs []).map String.mk
    let withLead := if isWs c then "" :: core else core
    if isWs (cs.getLastD 'a') then withLead ++ [""] else withLead

/-- First segment of JS `s.split(' ')`: the characters before the first
space. -/
def firstSpaceSegment (s : String) : String :=
  String.mk (s.toList.takeWhile (fun c => c ≠ ' '))

/-! ### Rounding and clamping -/

/-- `Number(x.toFixed(4))`: round to four decimal places.  (JS `toFixed`
rounds ties away from zero; all values rounded by the engine are
non-negative, where that agrees with the round-half-up used here.) -/
def roundTo4 (q : ℚ) : ℚ :=
  ((round (q * 10000) : ℤ) : ℚ) / 10000

/-- `Math.max(SCORE_MIN, Math.min(SCORE_MAX, x))` with the documented
bounds 0 and 1. -/
def clamp01 (q : ℚ) : ℚ :=
  max 0 (min 1 q)

/-! ### Data model (src/unnamed/part_002, the shared type declarations) -/

/-- `LocationInput`: coordinates or a named point of interest. -/
inductive Location where
  | coordinates (lat lng : ℚ)
  | poi (name city : String)
deriving DecidableEq, Repr

/-- The image handle of a request: a File (name and size) or a base64
string. -/
inductive Image where
  | file (name : String) (size : Nat)
  | base64 (data : String)
deriving DecidableEq, Repr

/-- `ValidationRequest`.  The timestamp is carried as epoch milliseconds,
the value of `new Date(isoString).getTime()` for the validated ISO string
of the transport layer. -/
structure ValidationRequest where
  text : String
  image : Option Image
  location : Location
  timestamp : Option ℤ
deriving DecidableEq, Repr

/-- The three-way classification. -/
inductive Classification where
  | PASS
  | LOW_CONFIDENCE
  | FLAGGED
deriving DecidableEq, Repr

/-- `SignalBreakdown`: the four scalar signals. -/
structure SignalBreakdown where
  text_place_match : ℚ
  image_landmark : ℚ
  time_plausibility : ℚ
  spam_risk : ℚ
deriving DecidableEq, Repr

/-- `ValidationResponse`.  The explanation string of the source (a pure
template over the fields below, §4.5 step 6 of the spec) is not needed by
any claim and is omitted from the embedding. -/
structure ValidationResponse where
  score : ℚ
  classification : Classification
  signals : SignalBreakdown
deriving DecidableEq, Repr

/-! ### Association lists standing in for the JS Maps -/

/-- `map.get(k)` as an Option. -/
def alistGet {β : Type} (l : List (String × β)) (k : String) : Option β :=
  match l with
  | [] => none
  | (k', v) :: rest => if k' = k then some v else alistGet rest k

/-- `map.set(k, v)`: replace the binding of `k`, or append a new one. -/
def alistSet {β : Type} (l : List (String × β)) (k : String) (v : β) :
    List (String × β) :=
  match l with
  | [] => [(k, v)]
  | (k', v') :: rest =>
    if k' = k then (k, v) :: rest else (k', v') :: alistSet rest k v

/-- `[...new Set(xs)]`: remove duplicates keeping first occurrences. -/
def dedupFirst (l : List String) : List String :=
  go l []
where
  go : List String → List String → List String
    | [], _ => []
    | x :: xs, seen =>
      if seen.contains x then go xs seen else x :: go xs (x :: seen)

/-! ### Scanners for the JS global regex matches -/

/-- Matches of `/\b[A-Z]{2,}\b/g`: the maximal word-character runs made
entirely of capital letters, of length at least two.  (A partial run of
capitals inside a longer word run is rejected by the word boundaries.) -/
def allCapsTokens (s : String) : List String :=
  ((runsBy isWordChar s.toList []).filter
    (fun r => decide (r.length ≥ 2) && r.all (fun c => 'A' ≤ c && c ≤ 'Z'))).map
    String.mk

/-- Scanner for `/"([^"]+)"/g`, returning the captured bodies in order.
The fuel argument bounds the recursion; it is instantiated with the text
length, which the scan never exceeds. -/
def quotedScan : Nat → List Char → List String
  | 0, _ => []
  | _ + 1, [] => []
  | fuel + 1, c :: cs =>
    if c = '"' then
      let body := cs.takeWhile (fun ch => ch ≠ '"')
      if body.isEmpty then quotedScan fuel cs
      else
        match cs.dropWhile (fun ch => ch ≠ '"') with
        | '"' :: rest => String.mk body :: quotedScan fuel rest
        | _ => quotedScan fuel cs
    else quotedScan fuel cs

/-- The bodies of the quoted phrases of `s` (JS `s.match(/"([^"]+)"/g)`
with the surrounding quotes removed). -/
def quotedPhrases (s : String) : List String :=
  quotedScan s.toList.length s.toList

/-! ### Constants of the missing configuration module

The analyzers read their tuning constants from `src/lib/constants`, a file
of this repository that is not present under `src/`.  The values below are
modelled from the spec and the in-repo documentation (README.md,
TESTING.md), which state them explicitly where they matter. -/

/-- Modelled from the spec: `SCORE_MIN`, the lower clamp bound; §3 fixes
the score range to [0,1]. -/
def SCORE_MIN : ℚ := 0

/-- Modelled from the spec: `SCORE_MAX`, the upper clamp bound; §3 fixes
the score range to [0,1]. -/
def SCORE_MAX : ℚ := 1

/-- Modelled from the spec: `MIN_POI_WORD_LENGTH`, the length a POI word
must exceed to count as a word match (§4.1: words longer than a minimum
length; the constants module is absent from src). -/
def MIN_POI_WORD_LENGTH : Nat := 3

/-- Modelled from the spec: `TEXT_NO_MATCHES_SCORE`, the floor score when
no matches are found (§8 scenario B: text with no matches scores 0.1). -/
def TEXT_NO_MATCHES_SCORE : ℚ := 0.1

/-- Modelled from the spec: `TEXT_EXACT_POI_MATCH_SCORE` (TESTING.md:
exact POI match contributes +0.5). -/
def TEXT_EXACT_POI_MATCH_SCORE : ℚ := 0.5

/-- Modelled from the spec: `TEXT_POI_WORD_MATCH_BASE`, the contribution
of one POI word match (TESTING.md caps word matches at +0.3). -/
def TEXT_POI_WORD_MATCH_BASE : ℚ := 0.1

/-- Modelled from the spec: `TEXT_POI_WORD_MATCH_MAX` (TESTING.md: POI
word matches contribute up to +0.3). -/
def TEXT_POI_WORD_MATCH_MAX : ℚ := 0.3

/-- Modelled from the spec: `TEXT_NICKNAME_MATCH_SCORE` (TESTING.md:
nickname matches contribute +0.3). -/
def TEXT_NICKNAME_MATCH_SCORE : ℚ := 0.3

/-- Modelled from the spec: `TEXT_CITY_MENTION_SCORE` (TESTING.md: city
mentions contribute +0.2). -/
def TEXT_CITY_MENTION_SCORE : ℚ := 0.2

/-- Modelled from the spec: `TEXT_ENTITY_MATCH_BASE`, the contribution of
one entity match (§4.1: entity matches contribute small amounts). -/
def TEXT_ENTITY_MATCH_BASE : ℚ := 0.05

/-- Modelled from the spec: `TEXT_ENTITY_MATCH_MAX`, the cap on entity
match contributions (§4.1: up to a cap). -/
def TEXT_ENTITY_MATCH_MAX : ℚ := 0.1

/-- Modelled from the spec: `TEXT_COORDINATES_PENALTY` (TESTING.md:
coordinates without POI incur a 0.7 multiplier). -/
def TEXT_COORDINATES_PENALTY : ℚ := 0.7

/-! ### TextAnalyzer (src/lib/analyzers/textAnalyzer.ts) -/

/-- The result of `TextAnalyzer.analyze`. -/
structure TextAnalysisResult where
  score : ℚ
  entities : List String
  matched : List String
deriving DecidableEq, Repr

namespace TextAnalyzer

/-- The fixed vocabulary of venue keywords. -/
def venueKeywords : List String :=
  ["theater", "theatre", "stadium", "arena", "hall", "center", "centre",
   "venue", "club", "bar", "restaurant", "cafe", "museum", "gallery",
   "park", "plaza", "square", "bridge", "tower", "building"]

/-- `TextAnalyzer.extractEntities`: venue keywords present as substrings,
then the all-caps abbreviation tokens lower-cased, then the quoted phrases
with quotes stripped and lower-cased; duplicates removed keeping first
occurrences. -/
def extractEntities (text : String) : List String :=
  dedupFirst
    (venueKeywords.filter (fun k => strIncludes text k)
      ++ (allCapsTokens text).map jsLower
      ++ (quotedPhrases text).map jsLower)

/-- `TextAnalyzer.getNicknames`: the static canonical-name to nickname
table. -/
def getNicknames (poiName : String) : List String :=
  let lowerPoi := jsLower poiName
  if lowerPoi = "madison square garden" then ["msg", "the garden"]
  else if lowerPoi = "staples center" then ["staples"]
  else if lowerPoi = "yankee stadium" then ["yankee", "yankees"]
  else if lowerPoi = "dodger stadium" then ["dodger", "dodgers"]
  else if lowerPoi = "wembley stadium" then ["wembley"]
  else if lowerPoi = "olympic stadium" then ["olympic"]
  else []

/-- The static city-token list used in the coordinates-only case. -/
def cityKeywords : List String :=
  ["new york", "nyc", "los angeles", "la", "chicago", "san francisco"]

/-- `TextAnalyzer.findLocationMatches`: labelled matches of the text
against the claimed location, in source push order, deduplicated. -/
def findLocationMatches (text : String) (location : Location)
    (entities : List String) : List String :=
  match location with
  | Location.poi name city =>
    let poiName := jsLower name
    let cityLower := jsLower city
    let exactMatches :=
      if strIncludes text poiName then ["exact_poi:" ++ poiName] else []
    let wordMatches :=
      ((jsSplitWs poiName).filter
        (fun w => decide (w.length > MIN_POI_WORD_LENGTH) && strIncludes text w)).map
        (fun w => "poi_word:" ++ w)
    let cityMatches :=
      if strIncludes text cityLower then ["city:" ++ cityLower] else []
    let nicknameMatches :=
      ((getNicknames poiName).filter (fun n => strIncludes text n)).map
        (fun n => "nickname:" ++ n)
    let entityMatches :=
      (entities.filter (fun e =>
        strIncludes poiName e || strIncludes e (firstSpaceSegment poiName))).map
        (fun e => "entity:" ++ e)
    dedupFirst (exactMatches ++ wordMatches ++ cityMatches
      ++ nicknameMatches ++ entityMatches)
  | Location.coordinates _ _ =>
    dedupFirst
      ((cityKeywords.filter (fun c => strIncludes text c)).map
        (fun c => "city_mention:" ++ c))

/-- `TextAnalyzer.calculateScore`: additive contributions with per-category
caps, coordinates penalty, global clamp; the fixed floor when there are no
matches at all. -/
def calculateScore (matched : List String) (location : Location) : ℚ :=
  if matched.isEmpty then TEXT_NO_MATCHES_SCORE
  else
    let s1 : ℚ :=
      if matched.any (fun m => m.startsWith "exact_poi:")
      then TEXT_EXACT_POI_MATCH_SCORE else 0
    let poiWordCount := (matched.filter (fun m => m.startsWith "poi_word:")).length
    let s2 := s1 + min TEXT_POI_WORD_MATCH_MAX
      ((poiWordCount : ℚ) * TEXT_POI_WORD_MATCH_BASE)
    let s3 :=
      if matched.any (fun m => m.startsWith "nickname:")
      then s2 + TEXT_NICKNAME_MATCH_SCORE else s2
    let s4 :=
      if matched.any (fun m => m.startsWith "city:")
      then s3 + TEXT_CITY_MENTION_SCORE else s3
    let entityCount := (matched.filter (fun m => m.startsWith "entity:")).length
    let s5 := s4 + min TEXT_ENTITY_MATCH_MAX
      ((entityCount : ℚ) * TEXT_ENTITY_MATCH_BASE)
    let s6 :=
      match location with
      | Location.coordinates _ _ => s5 * TEXT_COORDINATES_PENALTY
      | Location.poi _ _ => s5
    min SCORE_MAX (max SCORE_MIN s6)

/-- `TextAnalyzer.analyze`: lower-case, extract entities from the
lower-cased text, match, score. -/
def analyze (text : String) (location : Location) : TextAnalysisResult :=
  let normalizedText := jsLower text
  let entities := extractEntities normalizedText
  let matched := findLocationMatches normalizedText location entities
  { score := calculateScore matched location
    entities := entities
    matched := matched }

end TextAnalyzer

/-! ### TimeAnalyzer (src/lib/analyzers/timeAnalyzer.ts) -/

/-- The result of `TimeAnalyzer.analyze`. -/
structure TimeAnalysisResult where
  score : ℚ
  isPlausible : Bool
  reason : String
deriving DecidableEq, Repr

/-- The services of the JS Date library consumed by the analyzer: the
current instant, the instant `new Date(year - 1, month, date)` one
calendar year before it, and the locale hour-of-day of an instant. -/
structure TimeEnv where
  nowMs : ℤ
  oneYearAgoMs : ℤ
  localHour : ℤ → ℕ

namespace TimeAnalyzer

/-- `TimeAnalyzer.inferVenueType`: substring checks on the lower-cased POI
name; coordinates have no name and default to general. -/
def inferVenueType (location : Location) : String :=
  let name :=
    match location with
    | Location.poi n _ => jsLower n
    | Location.coordinates _ _ => "unknown"
  if strIncludes name "stadium" || strIncludes name "arena" then "sports_venue"
  else if strIncludes name "theater" || strIncludes name "theatre"
    || strIncludes name "hall" then "performance_venue"
  else if strIncludes name "restaurant" || strIncludes name "cafe"
    || strIncludes name "bar" then "dining"
  else if strIncludes name "park" || strIncludes name "plaza" then "outdoor"
  else if strIncludes name "museum" || strIncludes name "gallery" then "cultural"
  else "general"

/-- `TimeAnalyzer.checkTimePlausibility`: per-venue-type hour bands. -/
def checkTimePlausibility (hour : ℕ) (venueType : String) : ℚ :=
  if venueType = "sports_venue" then
    if 19 ≤ hour ∧ hour ≤ 23 then 0.9
    else if 12 ≤ hour ∧ hour ≤ 18 then 0.7
    else if hour ≤ 6 then 0.2
    else 0.5
  else if venueType = "performance_venue" then
    if 19 ≤ hour ∧ hour ≤ 23 then 0.9
    else if 14 ≤ hour ∧ hour ≤ 18 then 0.6
    else if hour ≤ 6 then 0.2
    else 0.4
  else if venueType = "dining" then
    if 11 ≤ hour ∧ hour ≤ 22 then 0.9
    else if 7 ≤ hour ∧ hour ≤ 10 then 0.7
    else if 23 ≤ hour ∨ hour ≤ 6 then 0.3
    else 0.5
  else if venueType = "outdoor" then
    if 6 ≤ hour ∧ hour ≤ 21 then 0.9
    else if 22 ≤ hour ∨ hour ≤ 5 then 0.4
    else 0.7
  else if venueType = "cultural" then
    if 10 ≤ hour ∧ hour ≤ 18 then 0.9
    else if 19 ≤ hour ∨ hour ≤ 9 then 0.4
    else 0.6
  else
    if 8 ≤ hour ∧ hour ≤ 22 then 0.8
    else 0.5

/-- `TimeAnalyzer.isWithinEventHours`: the strict typical-event-hours
range per venue type. -/
def isWithinEventHours (hour : ℕ) (venueType : String) : Bool :=
  if venueType = "sports_venue" ∨ venueType = "performance_venue" then
    decide (19 ≤ hour ∧ hour ≤ 23)
  else if venueType = "dining" then decide (11 ≤ hour ∧ hour ≤ 22)
  else if venueType = "outdoor" then decide (6 ≤ hour ∧ hour ≤ 21)
  else if venueType = "cultural" then decide (10 ≤ hour ∧ hour ≤ 18)
  else decide (8 ≤ hour ∧ hour ≤ 22)

/-- `TimeAnalyzer.analyze`: neutral when absent; future and too-old
checks; otherwise hour-of-day plausibility against the inferred venue
type. -/
def analyze (env : TimeEnv) (timestamp : Option ℤ) (location : Location) :
    TimeAnalysisResult :=
  match timestamp with
  | none =>
    { score := 0.5, isPlausible := true, reason := "No timestamp provided" }
  | some postTime =>
    if postTime > env.nowMs then
      { score := 0.1, isPlausible := false
        reason := "Timestamp is in the future" }
    else if postTime < env.oneYearAgoMs then
      { score := 0.3, isPlausible := false
        reason := "Timestamp is more than 1 year old" }
    else
      let hour := env.localHour postTime
      let venueType := inferVenueType location
      let timeScore := checkTimePlausibility hour venueType
      let isEventHours := isWithinEventHours hour venueType
      let score : ℚ :=
        if isEventHours then 0.9
        else if timeScore > 0.5 then 0.7
        else 0.4
      let reason :=
        if isEventHours then "Time is within typical " ++ venueType ++ " hours"
        else if timeScore > 0.5 then "Time is plausible for venue type"
        else "Time is outside typical hours for venue type"
      { score := score, isPlausible := decide (score ≥ 0.4), reason := reason }

end TimeAnalyzer

/-! ### SpamAnalyzer (src/lib/analyzers/spamAnalyzer.ts) -/

/-- The result of `SpamAnalyzer.analyze`. -/
structure SpamAnalysisResult where
  risk : ℚ
  reasons : List String
deriving DecidableEq, Repr

/-- One entry of the per-submitter submission history. -/
structure SubmissionRecord where
  timestamp : ℤ
  textHash : String
deriving DecidableEq, Repr

/-- The class-level mutable state of the SpamAnalyzer: the duplicate-text
index and the per-submitter history. -/
structure SpamState where
  textHashes : List (String × Nat)
  submissionHistory : List (String × List SubmissionRecord)
deriving DecidableEq, Repr

/-- Modelled from the spec: `SPAM_SHORT_TEXT_LENGTH` (§4.4: length below
a fixed minimum of 10 characters). -/
def SPAM_SHORT_TEXT_LENGTH : Nat := 10

/-- Modelled from the spec: `SPAM_MAX_HASHTAGS` (§4.4: more than 10
hashtags). -/
def SPAM_MAX_HASHTAGS : Nat := 10

/-- Modelled from the spec: `SPAM_MAX_URLS` (§4.4: more than 3 URLs). -/
def SPAM_MAX_URLS : Nat := 3

/-- Modelled from the spec: `SPAM_BURST_WINDOW_MS` (§4.4: a five-minute
trailing window). -/
def SPAM_BURST_WINDOW_MS : ℤ := 300000

/-- Modelled from the spec: `SPAM_BURST_HIGH_THRESHOLD` (§4.4: at least
5 prior submissions in the window). -/
def SPAM_BURST_HIGH_THRESHOLD : Nat := 5

/-- Modelled from the spec: `SPAM_BURST_MEDIUM_THRESHOLD` (§4.4: at least
3 prior submissions in the window). -/
def SPAM_BURST_MEDIUM_THRESHOLD : Nat := 3

/-- Modelled from the spec: `MAX_SUBMISSION_HISTORY` (§4.4: per-submitter
history capped at 100 entries). -/
def MAX_SUBMISSION_HISTORY : Nat := 100

/-- Modelled from the spec: `TEXT_HASH_LENGTH`, the prefix length of the
normalized-text fingerprint.  The spec fixes only that the fingerprint is
a prefix surrogate; the exact length does not affect any claim, since all
claims quantify over texts with equal fingerprints. -/
def TEXT_HASH_LENGTH : Nat := 100

namespace SpamAnalyzer

/-- Scanner for `/#\w+/g`: count of hashtag matches, left to right,
non-overlapping. -/
def hashtagScan : Nat → List Char → Nat
  | 0, _ => 0
  | _ + 1, [] => 0
  | fuel + 1, c :: cs =>
    if c = '#' then
      if (cs.takeWhile isWordChar).isEmpty then hashtagScan fuel cs
      else hashtagScan fuel (cs.dropWhile isWordChar) + 1
    else hashtagScan fuel cs

/-- `text.match(/#\w+/g)` count. -/
def countHashtags (s : String) : Nat :=
  hashtagScan s.toList.length s.toList

/-- The remainder after a literal `https://` or `http://` head, if any
(the `https?:\/\/` part of the URL regex; the greedy optional `s` first). -/
def urlTail : List Char → Option (List Char)
  | 'h' :: 't' :: 't' :: 'p' :: 's' :: ':' :: '/' :: '/' :: rest => some rest
  | 'h' :: 't' :: 't' :: 'p' :: ':' :: '/' :: '/' :: rest => some rest
  | _ => none

/-- Scanner for `/https?:\/\/\S+/g`: count of URL matches.  A scheme head
with no following non-whitespace fails and the scan advances one
character, as the regex engine does. -/
def urlScan : Nat → List Char → Nat
  | 0, _ => 0
  | _ + 1, [] => 0
  | fuel + 1, l@(_ :: cs) =>
    match urlTail l with
    | some afterScheme =>
      if (afterScheme.takeWhile (fun ch => !isWs ch)).isEmpty then
        urlScan fuel cs
      else urlScan fuel (afterScheme.dropWhile (fun ch => !isWs ch)) + 1
    | none => urlScan fuel cs

/-- `text.match(/https?:\/\/\S+/g)` count. -/
def countUrls (s : String) : Nat :=
  urlScan s.toList.length s.toList

/-- Collapse each whitespace run to a single space
(`replace(/\s+/g, ' ')`). -/
def collapseWs : Nat → List Char → List Char
  | 0, _ => []
  | _ + 1, [] => []
  | fuel + 1, c :: cs =>
    if isWs c then ' ' :: collapseWs fuel (cs.dropWhile isWs)
    else c :: collapseWs fuel cs

/-- `SpamAnalyzer.hashText`: lower-case, trim, collapse whitespace, strip
punctuation, then the fixed-length prefix. -/
def hashText (text : String) : String :=
  let lowered := (jsLower text).toList
  let trimmed := ((lowered.dropWhile isWs).reverse.dropWhile isWs).reverse
  let collapsed := collapseWs trimmed.length trimmed
  let stripped := collapsed.filter (fun c => isWordChar c || isWs c)
  String.mk (stripped.take TEXT_HASH_LENGTH)

/-- The prior occurrence count of the fingerprint of `text` in the
duplicate-text index. -/
def duplicateCount (st : SpamState) (text : String) : Nat :=
  (alistGet st.textHashes (hashText text)).getD 0

/-- The duplicate-text risk contribution. -/
def duplicateRisk (st : SpamState) (text : String) : ℚ :=
  if duplicateCount st text > 0 then 0.4 else 0

/-- The short-text risk contribution. -/
def shortTextRisk (text : String) : ℚ :=
  if text.length < SPAM_SHORT_TEXT_LENGTH then 0.2 else 0

/-- The excessive-hashtag risk contribution. -/
def hashtagRisk (text : String) : ℚ :=
  if countHashtags text > SPAM_MAX_HASHTAGS then 0.2 else 0

/-- The URL-spam risk contribution. -/
def urlRisk (text : String) : ℚ :=
  if countUrls text > SPAM_MAX_URLS then 0.3 else 0

/-- `SpamAnalyzer.checkBurstSubmissions` applied to the history list of a
submitter: count the records inside the trailing window ending at the
current timestamp. -/
def checkBurstSubmissions (history : List SubmissionRecord)
    (timestamp : Option ℤ) : ℚ :=
  match timestamp with
  | none => 0
  | some submissionTime =>
    let windowStart := submissionTime - SPAM_BURST_WINDOW_MS
    let recentCount :=
      (history.filter (fun r => r.timestamp > windowStart)).length
    if recentCount ≥ SPAM_BURST_HIGH_THRESHOLD then 0.5
    else if recentCount ≥ SPAM_BURST_MEDIUM_THRESHOLD then 0.3
    else 0

/-- The burst risk contribution: zero without a submitter id, else the
burst check on that submitter's history. -/
def burstRisk (st : SpamState) (userId : Option String)
    (timestamp : Option ℤ) : ℚ :=
  match userId with
  | none => 0
  | some uid =>
    checkBurstSubmissions ((alistGet st.submissionHistory uid).getD [])
      timestamp

/-- The windows of five consecutive words (`for i in 0..len-5`). -/
def windows5 : List String → List (List String)
  | [] => []
  | x :: xs =>
    if (x :: xs).length ≥ 5 then (x :: xs).take 5 :: windows5 xs else []

/-- The largest multiplicity among the five-word shingles. -/
def maxShingleRepeat (phrases : List String) : Nat :=
  (phrases.map (fun p => phrases.count p)).foldr max 0

/-- `SpamAnalyzer.detectCopyPaste`: five-word shingle repetition risk. -/
def detectCopyPaste (text : String) : ℚ :=
  let words := jsSplitWs (jsLower text)
  if words.length < 10 then 0
  else
    let phrases := (windows5 words).map (String.intercalate " ")
    let maxRepeat := maxShingleRepeat phrases
    if maxRepeat ≥ 3 then 0.4
    else if maxRepeat ≥ 2 then 0.2
    else 0

/-- `SpamAnalyzer.recordSubmission`: always bump the fingerprint count;
with both a submitter id and a timestamp, append to that submitter's
history and evict the oldest entries beyond the cap. -/
def recordSubmission (st : SpamState) (text : String)
    (userId : Option String) (timestamp : Option ℤ) : SpamState :=
  let h := hashText text
  let textHashes :=
    alistSet st.textHashes h ((alistGet st.textHashes h).getD 0 + 1)
  match userId, timestamp with
  | some uid, some t =>
    let history := (alistGet st.submissionHistory uid).getD []
    let history := history ++ [{ timestamp := t, textHash := h }]
    let history :=
      if history.length > MAX_SUBMISSION_HISTORY then
        history.drop (history.length - MAX_SUBMISSION_HISTORY)
      else history
    { textHashes := textHashes
      submissionHistory := alistSet st.submissionHistory uid history }
  | _, _ =>
    { st with textHashes := textHashes }

/-- `SpamAnalyzer.analyze`: accumulate the six risk contributions with
their reason lines in source order, cap the risk at 1, record the
submission, and default the reasons when none triggered. -/
def analyze (st : SpamState) (text : String) (userId : Option String)
    (timestamp : Option ℤ) : SpamAnalysisResult × SpamState :=
  let dupCount := duplicateCount st text
  let dupReasons :=
    if dupCount > 0 then
      ["Text appears " ++ toString dupCount ++ " time(s) before"]
    else []
  let shortReasons :=
    if text.length < SPAM_SHORT_TEXT_LENGTH then
      ["Text is very short (" ++ toString text.length
        ++ " characters, minimum " ++ toString SPAM_SHORT_TEXT_LENGTH
        ++ " expected)"]
    else []
  let hashtagReasons :=
    if countHashtags text > SPAM_MAX_HASHTAGS then
      ["Excessive hashtags detected (" ++ toString (countHashtags text)
        ++ ", maximum " ++ toString SPAM_MAX_HASHTAGS ++ " allowed)"]
    else []
  let urlReasons :=
    if countUrls text > SPAM_MAX_URLS then
      ["Multiple URLs detected (" ++ toString (countUrls text)
        ++ ", maximum " ++ toString SPAM_MAX_URLS ++ " allowed)"]
    else []
  let burstReasons :=
    if burstRisk st userId timestamp > 0 then
      ["Burst submission pattern detected"]
    else []
  let copyPasteReasons :=
    if detectCopyPaste text > 0 then ["Copy-paste pattern detected"] else []
  let risk := min 1
    (duplicateRisk st text + shortTextRisk text + hashtagRisk text
      + urlRisk text + burstRisk st userId timestamp + detectCopyPaste text)
  let reasons := dupReasons ++ shortReasons ++ hashtagReasons ++ urlReasons
    ++ burstReasons ++ copyPasteReasons
  ({ risk := risk
     reasons := if reasons.isEmpty then ["No spam indicators"] else reasons },
   recordSubmission st text userId timestamp)

end SpamAnalyzer

/-! ### ImageAnalyzer (src/unnamed/part_003) -/

/-- The result of `ImageAnalyzer.analyze`. -/
structure ImageAnalysisResult where
  score : ℚ
  hasExif : Bool
  exifLocation : Option (ℚ × ℚ)
  isDuplicate : Bool
  hash : Option String
deriving DecidableEq, Repr

/-- The class-level duplicate-image index: fingerprint to the list of
location keys previously recorded for it. -/
def ImageState : Type := List (String × List String)

instance : DecidableEq ImageState := by
  unfold ImageState; infer_instance

namespace ImageAnalyzer

/-- Zero-padded four-digit fraction for `toFixed(4)`. -/
def pad4 (n : Nat) : String :=
  let s := toString n
  String.mk (List.replicate (4 - s.length) '0') ++ s

/-- JS `x.toFixed(4)` rendered as a string (round to four decimals; the
keys built from it are only ever compared for equality). -/
def toFixed4 (q : ℚ) : String :=
  let n := round (q * 10000)
  let a := n.natAbs
  (if n < 0 then "-" else "") ++ toString (a / 10000) ++ "." ++ pad4 (a % 10000)

/-- `ImageAnalyzer.getLocationKey`. -/
def getLocationKey (location : Location) : String :=
  match location with
  | Location.poi name city => name ++ "_" ++ city
  | Location.coordinates lat lng => toFixed4 lat ++ "_" ++ toFixed4 lng

/-- `ImageAnalyzer.computeImageHash`: the first 50 characters of a base64
string, or name and size of a File.  Option-valued because the source
wraps the computation in try/catch and yields undefined on failure; the
body itself is total. -/
def computeImageHash (image : Image) : Option String :=
  some (match image with
    | Image.base64 data => String.mk (data.toList.take 50)
    | Image.file name size => name ++ "_" ++ toString size)

/-- `ImageAnalyzer.checkExif`: the EXIF capability is a stub that always
reports absence. -/
def checkExif (_ : Image) : Bool := false

/-- `ImageAnalyzer.extractExifLocation`: the stubbed EXIF GPS extraction. -/
def extractExifLocation (_ : Image) : Option (ℚ × ℚ) := none

/-- `ImageAnalyzer.checkDuplicate`: flagged exactly when the fingerprint
has prior locations and the current location key is not among them. -/
def checkDuplicate (st : ImageState) (hash : Option String)
    (location : Location) : Bool :=
  match hash with
  | none => false
  | some h =>
    let locationKey := getLocationKey location
    let existingLocations := (alistGet st h).getD []
    if existingLocations.isEmpty then false
    else !(existingLocations.contains locationKey)

/-- `ImageAnalyzer.storeImageHash`: record the current location key under
the fingerprint (idempotent when already present; no-op without a
fingerprint). -/
def storeImageHash (st : ImageState) (hash : Option String)
    (location : Location) : ImageState :=
  match hash with
  | none => st
  | some h =>
    let locationKey := getLocationKey location
    let existing := (alistGet st h).getD []
    if existing.contains locationKey then st
    else alistSet st h (existing ++ [locationKey])

/-- The body of `ImageAnalyzer.analyze` after the fingerprint has been
computed (the hash argument is the outcome of the guarded fingerprinting
step; `none` is the caught-failure path).  `checkExif` is constantly false
in the source, so `exifLocation` is never present and the EXIF GPS
distance branch (the Haversine bands) is unreachable; the score with an
image present is the base 0.5 before the duplicate penalty. -/
def analyzeCore (st : ImageState) (image : Image) (hash : Option String)
    (location : Location) : ImageAnalysisResult × ImageState :=
  let isDuplicate := checkDuplicate st hash location
  let hasExif := checkExif image
  let exifLocation := if hasExif then extractExifLocation image else none
  let score : ℚ := 0.5
  let score := if isDuplicate then score * 0.3 else score
  ({ score := score, hasExif := hasExif, exifLocation := exifLocation
     isDuplicate := isDuplicate, hash := hash },
   storeImageHash st hash location)

/-- `ImageAnalyzer.analyze`: neutral result leaving the index untouched
when no image is supplied, else the fingerprint-and-check pipeline. -/
def analyze (st : ImageState) (image : Option Image) (location : Location) :
    ImageAnalysisResult × ImageState :=
  match image with
  | none =>
    ({ score := 0.5, hasExif := false, exifLocation := none
       isDuplicate := false, hash := none }, st)
  | some img => analyzeCore st img (computeImageHash img) location

end ImageAnalyzer

/-! ### ScoringEngine (src/lib/scoring/scoringEngine.ts) -/

/-- The process-wide state of the two stateful analyzers. -/
structure EngineState where
  image : ImageState
  spam : SpamState
deriving DecidableEq

/-- Modelled from the spec: `PASS_THRESHOLD` (§4.5 and README: 0.70). -/
def PASS_THRESHOLD : ℚ := 0.7

/-- Modelled from the spec: `LOW_CONFIDENCE_THRESHOLD` (§4.5 and README:
0.40). -/
def LOW_CONFIDENCE_THRESHOLD : ℚ := 0.4

namespace ScoringEngine

/-- `WEIGHTS.TEXT_PLACE`. -/
def WEIGHT_TEXT_PLACE : ℚ := 0.4

/-- `WEIGHTS.IMAGE`. -/
def WEIGHT_IMAGE : ℚ := 0.3

/-- `WEIGHTS.TIME`. -/
def WEIGHT_TIME : ℚ := 0.2

/-- `WEIGHTS.SPAM_PENALTY`. -/
def WEIGHT_SPAM_PENALTY : ℚ := 0.1

/-- `ScoringEngine.classify`. -/
def classify (score : ℚ) : Classification :=
  if score ≥ PASS_THRESHOLD then Classification.PASS
  else if score ≥ LOW_CONFIDENCE_THRESHOLD then Classification.LOW_CONFIDENCE
  else Classification.FLAGGED

/-- The weighted base score of a request before the spam penalty. -/
def baseScore (st : EngineState) (env : TimeEnv) (req : ValidationRequest) : ℚ :=
  (TextAnalyzer.analyze req.text req.location).score * WEIGHT_TEXT_PLACE
    + (ImageAnalyzer.analyze st.image req.image req.location).fst.score
      * WEIGHT_IMAGE
    + (TimeAnalyzer.analyze env req.timestamp req.location).score * WEIGHT_TIME

/-- The final (unclamped, unrounded) score of a request: the base score
with the multiplicative spam penalty. -/
def finalScore (st : EngineState) (env : TimeEnv) (req : ValidationRequest) : ℚ :=
  baseScore st env req
    * (1 - (SpamAnalyzer.analyze st.spam req.text none req.timestamp).fst.risk
        * WEIGHT_SPAM_PENALTY)

/-- `ScoringEngine.validate`: run the four analyzers (the spam analyzer
with no submitter id, as the source passes `undefined` for the user id),
combine, classify the unclamped final score, clamp, and round the score
and signals to four decimal places. -/
def validate (st : EngineState) (env : TimeEnv) (req : ValidationRequest) :
    ValidationResponse × EngineState :=
  let textResult := TextAnalyzer.analyze req.text req.location
  let imagePair := ImageAnalyzer.analyze st.image req.image req.location
  let timeResult := TimeAnalyzer.analyze env req.timestamp req.location
  let spamPair := SpamAnalyzer.analyze st.spam req.text none req.timestamp
  let imageResult := imagePair.fst
  let spamResult := spamPair.fst
  let base := textResult.score * WEIGHT_TEXT_PLACE
    + imageResult.score * WEIGHT_IMAGE + timeResult.score * WEIGHT_TIME
  let final := base * (1 - spamResult.risk * WEIGHT_SPAM_PENALTY)
  let classification := classify final
  let clampedScore := max SCORE_MIN (min SCORE_MAX final)
  ({ score := roundTo4 clampedScore
     classification := classification
     signals :=
      { text_place_match := roundTo4 textResult.score
        image_landmark := roundTo4 imageResult.score
        time_plausibility := roundTo4 timeResult.score
        spam_risk := roundTo4 spamResult.risk } },
   { image := imagePair.snd, spam := spamPair.snd })

end ScoringEngine

/-- The order of the three classes from worst to best, used to state that
classification is monotone in the score. -/
def classificationRank : Classification → Nat
  | Classification.FLAGGED => 0
  | Classification.LOW_CONFIDENCE => 1
  | Classification.PASS => 2

/-! ## Helper lemmas -/

theorem round_rat_mono {x y : ℚ} (h : x ≤ y) : round x ≤ round y := by
  rw [round_eq, round_eq]
  exact Int.floor_mono (by linarith)

theorem roundTo4_mono {x y : ℚ} (h : x ≤ y) : roundTo4 x ≤ roundTo4 y := by
  unfold roundTo4
  have hr : round (x * 10000) ≤ round (y * 10000) :=
    round_rat_mono (by linarith)
  have hc : ((round (x * 10000) : ℤ) : ℚ) ≤ ((round (y * 10000) : ℤ) : ℚ) :=
    Int.cast_le.mpr hr
  linarith

theorem roundTo4_zero : roundTo4 0 = 0 := by
  norm_num [roundTo4]

theorem roundTo4_one : roundTo4 1 = 1 := by
  have h1 : ((1 : ℚ) * 10000) = ((10000 : ℤ) : ℚ) := by norm_num
  rw [roundTo4, h1, round_intCast]
  norm_num

theorem roundTo4_ninetenths : roundTo4 (9 / 10) = 9 / 10 := by
  have h1 : ((9 / 10 : ℚ) * 10000) = ((9000 : ℤ) : ℚ) := by norm_num
  rw [roundTo4, h1, round_intCast]
  norm_num

theorem roundTo4_nonneg {x : ℚ} (h : 0 ≤ x) : 0 ≤ roundTo4 x := by
  have := roundTo4_mono h
  rwa [roundTo4_zero] at this

theorem roundTo4_le_one {x : ℚ} (h : x ≤ 1) : roundTo4 x ≤ 1 := by
  have := roundTo4_mono h
  rwa [roundTo4_one] at this

theorem clamp01_nonneg (q : ℚ) : 0 ≤ clamp01 q := le_max_left 0 _

theorem clamp01_le_one (q : ℚ) : clamp01 q ≤ 1 :=
  max_le (by norm_num) (min_le_left 1 q)

theorem clamp01_eq_self {q : ℚ} (h0 : 0 ≤ q) (h1 : q ≤ 1) : clamp01 q = q := by
  unfold clamp01
  rw [min_eq_right h1, max_eq_right h0]

theorem alistGet_set_self {β : Type} (l : List (String × β)) (k : String)
    (v : β) : alistGet (alistSet l k v) k = some v := by
  induction l with
  | nil => simp [alistSet, alistGet]
  | cons hd tl ih =>
    obtain ⟨k', v'⟩ := hd
    by_cases hk : k' = k
    · simp [alistSet, alistGet, hk]
    · simp [alistSet, alistGet, hk, ih]

/-! ### Range lemmas for the analyzer outputs -/

theorem TextAnalyzer.calculateScore_bounds (matched : List String)
    (location : Location) :
    0 ≤ TextAnalyzer.calculateScore matched location
      ∧ TextAnalyzer.calculateScore matched location ≤ 1 := by
  unfold TextAnalyzer.calculateScore
  split
  · constructor <;> norm_num [TEXT_NO_MATCHES_SCORE]
  · constructor
    · exact le_min (by norm_num [SCORE_MAX])
        (le_max_of_le_left (by norm_num [SCORE_MIN]))
    · exact le_trans (min_le_left _ _) (by norm_num [SCORE_MAX])

theorem TextAnalyzer.textScore_bounds (text : String) (location : Location) :
    0 ≤ (TextAnalyzer.analyze text location).score
      ∧ (TextAnalyzer.analyze text location).score ≤ 1 :=
  TextAnalyzer.calculateScore_bounds _ _

theorem ImageAnalyzer.imageScore_bounds (st : ImageState) (image : Option Image)
    (location : Location) :
    0 ≤ (ImageAnalyzer.analyze st image location).fst.score
      ∧ (ImageAnalyzer.analyze st image location).fst.score ≤ 1 := by
  rcases image with _ | img
  · constructor <;> norm_num [ImageAnalyzer.analyze]
  · unfold ImageAnalyzer.analyze ImageAnalyzer.analyzeCore
    dsimp only
    split <;> constructor <;> norm_num

theorem TimeAnalyzer.timeScore_bounds (env : TimeEnv) (timestamp : Option ℤ)
    (location : Location) :
    0 ≤ (TimeAnalyzer.analyze env timestamp location).score
      ∧ (TimeAnalyzer.analyze env timestamp location).score ≤ 1 := by
  rcases timestamp with _ | t
  · constructor <;> norm_num [TimeAnalyzer.analyze]
  · unfold TimeAnalyzer.analyze
    dsimp only
    split
    · constructor <;> norm_num
    · split
      · constructor <;> norm_num
      · split <;> [skip; split] <;> constructor <;> norm_num

theorem SpamAnalyzer.duplicateRisk_nonneg (st : SpamState) (text : String) :
    0 ≤ SpamAnalyzer.duplicateRisk st text := by
  unfold SpamAnalyzer.duplicateRisk; split <;> norm_num

theorem SpamAnalyzer.shortTextRisk_nonneg (text : String) :
    0 ≤ SpamAnalyzer.shortTextRisk text := by
  unfold SpamAnalyzer.shortTextRisk; split <;> norm_num

theorem SpamAnalyzer.hashtagRisk_nonneg (text : String) :
    0 ≤ SpamAnalyzer.hashtagRisk text := by
  unfold SpamAnalyzer.hashtagRisk; split <;> norm_num

theorem SpamAnalyzer.urlRisk_nonneg (text : String) :
    0 ≤ SpamAnalyzer.urlRisk text := by
  unfold SpamAnalyzer.urlRisk; split <;> norm_num

theorem SpamAnalyzer.burstRisk_nonneg (st : SpamState) (userId : Option String)
    (timestamp : Option ℤ) : 0 ≤ SpamAnalyzer.burstRisk st userId timestamp := by
  unfold SpamAnalyzer.burstRisk
  rcases userId with _ | uid
  · norm_num
  · unfold SpamAnalyzer.checkBurstSubmissions
    rcases timestamp with _ | t
    · norm_num
    · dsimp only; split <;> [skip; split] <;> norm_num

theorem SpamAnalyzer.detectCopyPaste_nonneg (text : String) :
    0 ≤ SpamAnalyzer.detectCopyPaste text := by
  unfold SpamAnalyzer.detectCopyPaste
  dsimp only
  split
  · norm_num
  · split <;> [skip; split] <;> norm_num

theorem SpamAnalyzer.riskSum_nonneg (st : SpamState) (text : String)
    (userId : Option String) (timestamp : Option ℤ) :
    0 ≤ SpamAnalyzer.duplicateRisk st text + SpamAnalyzer.shortTextRisk text
      + SpamAnalyzer.hashtagRisk text + SpamAnalyzer.urlRisk text
      + SpamAnalyzer.burstRisk st userId timestamp
      + SpamAnalyzer.detectCopyPaste text := by
  have h1 := SpamAnalyzer.duplicateRisk_nonneg st text
  have h2 := SpamAnalyzer.shortTextRisk_nonneg text
  have h3 := SpamAnalyzer.hashtagRisk_nonneg text
  have h4 := SpamAnalyzer.urlRisk_nonneg text
  have h5 := SpamAnalyzer.burstRisk_nonneg st userId timestamp
  have h6 := SpamAnalyzer.detectCopyPaste_nonneg text
  linarith

theorem SpamAnalyzer.risk_bounds (st : SpamState) (text : String)
    (userId : Option String) (timestamp : Option ℤ) :
    0 ≤ (SpamAnalyzer.analyze st text userId timestamp).fst.risk
      ∧ (SpamAnalyzer.analyze st text userId timestamp).fst.risk ≤ 1 := by
  constructor
  · exact le_min (by norm_num)
      (SpamAnalyzer.riskSum_nonneg st text userId timestamp)
  · exact min_le_left _ _

/-! ### Unfolding equations for the assembled engine -/

theorem ScoringEngine.validate_score_eq (st : EngineState) (env : TimeEnv)
    (req : ValidationRequest) :
    (ScoringEngine.validate st env req).fst.score
      = roundTo4 (clamp01 (ScoringEngine.finalScore st env req)) := rfl

theorem ScoringEngine.validate_classification_eq (st : EngineState)
    (env : TimeEnv) (req : ValidationRequest) :
    (ScoringEngine.validate st env req).fst.classification
      = ScoringEngine.classify (ScoringEngine.finalScore st env req) := rfl

theorem ScoringEngine.validate_signals_eq (st : EngineState) (env : TimeEnv)
    (req : ValidationRequest) :
    (ScoringEngine.validate st env req).fst.signals
      = { text_place_match :=
            roundTo4 (TextAnalyzer.analyze req.text req.location).score
          image_landmark :=
            roundTo4 (ImageAnalyzer.analyze st.image req.image req.location).fst.score
          time_plausibility :=
            roundTo4 (TimeAnalyzer.analyze env req.timestamp req.location).score
          spam_risk :=
            roundTo4 (SpamAnalyzer.analyze st.spam req.text none req.timestamp).fst.risk } :=
  rfl

theorem ScoringEngine.validate_state_eq (st : EngineState) (env : TimeEnv)
    (req : ValidationRequest) :
    (ScoringEngine.validate st env req).snd
      = { image := (ImageAnalyzer.analyze st.image req.image req.location).snd
          spam := (SpamAnalyzer.analyze st.spam req.text none req.timestamp).snd } :=
  rfl

/-! ## The claims -/

/-- C1: classification is a pure, monotone function of the final score
computed by the engine (the unclamped, unrounded value, which is what the
source classifies): scores at or above 0.70 classify PASS, scores in
[0.40, 0.70) classify LOW_CONFIDENCE, scores below 0.40 classify FLAGGED;
the characterizations are mutually exclusive, and the class is monotone in
the score. -/
theorem claim_classification_pure_monotone :
    (∀ (st : EngineState) (env : TimeEnv) (req : ValidationRequest),
      (ScoringEngine.validate st env req).fst.classification
        = ScoringEngine.classify (ScoringEngine.finalScore st env req))
    ∧ (∀ s : ℚ,
        ScoringEngine.classify s = Classification.PASS ↔ 7 / 10 ≤ s)
    ∧ (∀ s : ℚ,
        ScoringEngine.classify s = Classification.LOW_CONFIDENCE
          ↔ 2 / 5 ≤ s ∧ s < 7 / 10)
    ∧ (∀ s : ℚ,
        ScoringEngine.classify s = Classification.FLAGGED ↔ s < 2 / 5)
    ∧ (∀ s1 s2 : ℚ, s1 ≤ s2 →
        classificationRank (ScoringEngine.classify s1)
          ≤ classificationRank (ScoringEngine.classify s2)) := by
  refine ⟨fun st env req => rfl, fun s => ?_, fun s => ?_, fun s => ?_,
    fun s1 s2 h => ?_⟩
  · unfold ScoringEngine.classify
    split_ifs with h1 h2 <;>
      simp_all [PASS_THRESHOLD, LOW_CONFIDENCE_THRESHOLD] <;> linarith
  · unfold ScoringEngine.classify
    split_ifs with h1 h2 <;>
      simp_all [PASS_THRESHOLD, LOW_CONFIDENCE_THRESHOLD] <;>
      first
        | linarith
        | (constructor <;> linarith)
        | (intro hc; linarith)
  · unfold ScoringEngine.classify
    split_ifs with h1 h2 <;>
      simp_all [PASS_THRESHOLD, LOW_CONFIDENCE_THRESHOLD] <;> linarith
  · unfold ScoringEngine.classify
    split_ifs <;>
      simp_all [classificationRank, PASS_THRESHOLD, LOW_CONFIDENCE_THRESHOLD] <;>
      linarith

/-- C1 witness: the threshold characterizations and the monotonicity at
concrete scores. -/
theorem claim_classification_pure_monotone_witness :
    ScoringEngine.classify (4 / 5) = Classification.PASS
      ∧ (1 : ℚ) / 2 ≤ 4 / 5
      ∧ classificationRank (ScoringEngine.classify (1 / 2))
          ≤ classificationRank (ScoringEngine.classify (4 / 5)) :=
  ⟨(claim_classification_pure_monotone.2.1 (4 / 5)).mpr (by norm_num),
   by norm_num,
   claim_classification_pure_monotone.2.2.2.2 (1 / 2) (4 / 5) (by norm_num)⟩

/-- C2: for every request the engine computes the base score as
text×0.4 + image×0.3 + time×0.2, applies the spam risk as the
multiplicative penalty ×(1 − risk×0.1), clamps the result to [0,1], and
returns it together with the four analyzer signals, each rounded to four
decimal places. -/
theorem claim_validate_weighted_formula (st : EngineState) (env : TimeEnv)
    (req : ValidationRequest) :
    (ScoringEngine.validate st env req).fst.score
      = roundTo4 (clamp01
          (((TextAnalyzer.analyze req.text req.location).score * 0.4
            + (ImageAnalyzer.analyze st.image req.image req.location).fst.score
              * 0.3
            + (TimeAnalyzer.analyze env req.timestamp req.location).score * 0.2)
          * (1 - (SpamAnalyzer.analyze st.spam req.text none
              req.timestamp).fst.risk * 0.1)))
    ∧ (ScoringEngine.validate st env req).fst.signals.text_place_match
        = roundTo4 (TextAnalyzer.analyze req.text req.location).score
    ∧ (ScoringEngine.validate st env req).fst.signals.image_landmark
        = roundTo4
          (ImageAnalyzer.analyze st.image req.image req.location).fst.score
    ∧ (ScoringEngine.validate st env req).fst.signals.time_plausibility
        = roundTo4 (TimeAnalyzer.analyze env req.timestamp req.location).score
    ∧ (ScoringEngine.validate st env req).fst.signals.spam_risk
        = roundTo4
          (SpamAnalyzer.analyze st.spam req.text none req.timestamp).fst.risk :=
  ⟨rfl, rfl, rfl, rfl, rfl⟩

/-- C4: for every request, the returned score and all four returned
signals lie in [0, 1]. -/
theorem claim_response_unit_range (st : EngineState) (env : TimeEnv)
    (req : ValidationRequest) :
    (0 ≤ (ScoringEngine.validate st env req).fst.score
      ∧ (ScoringEngine.validate st env req).fst.score ≤ 1)
    ∧ (0 ≤ (ScoringEngine.validate st env req).fst.signals.text_place_match
      ∧ (ScoringEngine.validate st env req).fst.signals.text_place_match ≤ 1)
    ∧ (0 ≤ (ScoringEngine.validate st env req).fst.signals.image_landmark
      ∧ (ScoringEngine.validate st env req).fst.signals.image_landmark ≤ 1)
    ∧ (0 ≤ (ScoringEngine.validate st env req).fst.signals.time_plausibility
      ∧ (ScoringEngine.validate st env req).fst.signals.time_plausibility ≤ 1)
    ∧ (0 ≤ (ScoringEngine.validate st env req).fst.signals.spam_risk
      ∧ (ScoringEngine.validate st env req).fst.signals.spam_risk ≤ 1) := by
  have ht := TextAnalyzer.textScore_bounds req.text req.location
  have hi := ImageAnalyzer.imageScore_bounds st.image req.image req.location
  have htm := TimeAnalyzer.timeScore_bounds env req.timestamp req.location
  have hr := SpamAnalyzer.risk_bounds st.spam req.text none req.timestamp
  refine ⟨?_, ?_, ?_, ?_, ?_⟩
  · rw [ScoringEngine.validate_score_eq]
    exact ⟨roundTo4_nonneg (clamp01_nonneg _), roundTo4_le_one (clamp01_le_one _)⟩
  · rw [ScoringEngine.validate_signals_eq]
    exact ⟨roundTo4_nonneg ht.1, roundTo4_le_one ht.2⟩
  · rw [ScoringEngine.validate_signals_eq]
    exact ⟨roundTo4_nonneg hi.1, roundTo4_le_one hi.2⟩
  · rw [ScoringEngine.validate_signals_eq]
    exact ⟨roundTo4_nonneg htm.1, roundTo4_le_one htm.2⟩
  · rw [ScoringEngine.validate_signals_eq]
    exact ⟨roundTo4_nonneg hr.1, roundTo4_le_one hr.2⟩

/-- C10: the final score before clamping is non-negative and at most 0.9
(the three positive weights sum to 0.9 and the spam multiplier lies in
[0.9, 1]); the clamp to [0,1] never changes the value, the returned score
is the rounding of the unclamped final score, and returned scores above
0.9 are unreachable. -/
theorem claim_final_score_cap (st : EngineState) (env : TimeEnv)
    (req : ValidationRequest) :
    0 ≤ ScoringEngine.finalScore st env req
    ∧ ScoringEngine.finalScore st env req ≤ 9 / 10
    ∧ clamp01 (ScoringEngine.finalScore st env req)
        = ScoringEngine.finalScore st env req
    ∧ (ScoringEngine.validate st env req).fst.score
        = roundTo4 (ScoringEngine.finalScore st env req)
    ∧ (ScoringEngine.validate st env req).fst.score ≤ 9 / 10 := by
  have ht := TextAnalyzer.textScore_bounds req.text req.location
  have hi := ImageAnalyzer.imageScore_bounds st.image req.image req.location
  have htm := TimeAnalyzer.timeScore_bounds env req.timestamp req.location
  have hr := SpamAnalyzer.risk_bounds st.spam req.text none req.timestamp
  have hb0 : 0 ≤ ScoringEngine.baseScore st env req := by
    unfold ScoringEngine.baseScore ScoringEngine.WEIGHT_TEXT_PLACE
      ScoringEngine.WEIGHT_IMAGE ScoringEngine.WEIGHT_TIME
    norm_num
    linarith [ht.1, hi.1, htm.1]
  have hb9 : ScoringEngine.baseScore st env req ≤ 9 / 10 := by
    unfold ScoringEngine.baseScore ScoringEngine.WEIGHT_TEXT_PLACE
      ScoringEngine.WEIGHT_IMAGE ScoringEngine.WEIGHT_TIME
    norm_num
    linarith [ht.2, hi.2, htm.2]
  have hm0 : 0 ≤ 1 - (SpamAnalyzer.analyze st.spam req.text none
      req.timestamp).fst.risk * ScoringEngine.WEIGHT_SPAM_PENALTY := by
    unfold ScoringEngine.WEIGHT_SPAM_PENALTY
    norm_num
    linarith [hr.2]
  have hm1 : 1 - (SpamAnalyzer.analyze st.spam req.text none
      req.timestamp).fst.risk * ScoringEngine.WEIGHT_SPAM_PENALTY ≤ 1 := by
    unfold ScoringEngine.WEIGHT_SPAM_PENALTY
    norm_num
    linarith [hr.1]
  have hf0 : 0 ≤ ScoringEngine.finalScore st env req :=
    mul_nonneg hb0 hm0
  have hf9 : ScoringEngine.finalScore st env req ≤ 9 / 10 :=
    le_trans (mul_le_of_le_one_right hb0 hm1) hb9
  have hclamp : clamp01 (ScoringEngine.finalScore st env req)
      = ScoringEngine.finalScore st env req :=
    clamp01_eq_self hf0 (le_trans hf9 (by norm_num))
  refine ⟨hf0, hf9, hclamp, ?_, ?_⟩
  · rw [ScoringEngine.validate_score_eq, hclamp]
  · rw [ScoringEngine.validate_score_eq, hclamp]
    have := roundTo4_mono hf9
    rwa [roundTo4_ninetenths] at this

theorem ImageAnalyzer.analyze_some_eq (st : ImageState) (img : Image)
    (h : String) (loc : Location)
    (hh : ImageAnalyzer.computeImageHash img = some h) :
    ImageAnalyzer.analyze st (some img) loc
      = ImageAnalyzer.analyzeCore st img (some h) loc := by
  unfold ImageAnalyzer.analyze
  dsimp only
  rw [hh]

theorem ImageAnalyzer.analyzeCore_spec (st : ImageState) (img : Image)
    (h : String) (loc : Location) :
    (ImageAnalyzer.analyzeCore st img (some h) loc).fst.isDuplicate
      = ImageAnalyzer.checkDuplicate st (some h) loc
    ∧ (ImageAnalyzer.analyzeCore st img (some h) loc).fst.score
      = (if ImageAnalyzer.checkDuplicate st (some h) loc then (0.5 : ℚ) * 0.3
         else 0.5)
    ∧ (ImageAnalyzer.analyzeCore st img (some h) loc).snd
      = ImageAnalyzer.storeImageHash st (some h) loc :=
  ⟨rfl, rfl, rfl⟩

theorem ImageAnalyzer.checkDuplicate_some_eq (st : ImageState) (h : String)
    (loc : Location) :
    ImageAnalyzer.checkDuplicate st (some h) loc
      = (if ((alistGet st h).getD []).isEmpty then false
         else !((alistGet st h).getD []).contains
            (ImageAnalyzer.getLocationKey loc)) := rfl

/-- C8: scoring degrades gracefully instead of failing — a missing image
yields the neutral image score 0.5 and leaves the duplicate index
untouched; a missing timestamp yields time score 0.5 with isPlausible
true; and the caught-failure path of the fingerprinting routine (an absent
hash) skips the duplicate check and the record step, returning the neutral
image result instead of propagating a failure. -/
theorem claim_graceful_degradation :
    (∀ (st : ImageState) (loc : Location),
      ImageAnalyzer.analyze st none loc
        = ({ score := 0.5, hasExif := false, exifLocation := none,
             isDuplicate := false, hash := none }, st))
    ∧ (∀ (env : TimeEnv) (loc : Location),
      TimeAnalyzer.analyze env none loc
        = { score := 0.5, isPlausible := true,
            reason := "No timestamp provided" })
    ∧ (∀ (st : ImageState) (img : Image) (loc : Location),
        (ImageAnalyzer.analyzeCore st img none loc).fst.isDuplicate = false
        ∧ (ImageAnalyzer.analyzeCore st img none loc).fst.score = 0.5
        ∧ (ImageAnalyzer.analyzeCore st img none loc).snd = st) :=
  ⟨fun _ _ => rfl, fun _ _ => rfl, fun _ _ _ => ⟨rfl, rfl, rfl⟩⟩

/-- C6: with a timestamp that is present, not in the future and not older
than one year, the time score is 0.9 when the hour lies in the strict
event-hours range of the inferred venue type, else 0.7 when the
plausibility band exceeds 0.5, else 0.4, and isPlausible is exactly the
test score ≥ 0.4 (hence true in all three cases). -/
theorem claim_time_hour_bands (env : TimeEnv) (t : ℤ) (location : Location)
    (h1 : ¬ t > env.nowMs) (h2 : ¬ t < env.oneYearAgoMs) :
    (TimeAnalyzer.analyze env (some t) location).score
      = (if TimeAnalyzer.isWithinEventHours (env.localHour t)
            (TimeAnalyzer.inferVenueType location) then (0.9 : ℚ)
         else if TimeAnalyzer.checkTimePlausibility (env.localHour t)
            (TimeAnalyzer.inferVenueType location) > 0.5 then 0.7
         else 0.4)
    ∧ (TimeAnalyzer.analyze env (some t) location).isPlausible
        = decide ((TimeAnalyzer.analyze env (some t) location).score ≥ 0.4)
    ∧ (TimeAnalyzer.analyze env (some t) location).isPlausible = true := by
  unfold TimeAnalyzer.analyze
  dsimp only
  rw [if_neg h1, if_neg h2]
  refine ⟨rfl, rfl, ?_⟩
  dsimp only
  split
  · norm_num
  · split <;> norm_num

/-- C6 witness: an evening timestamp at a sports venue, between the
environment bounds, is scored 0.9 and plausible. -/
theorem claim_time_hour_bands_witness :
    (TimeAnalyzer.analyze ⟨1000000, 0, fun _ => 20⟩ (some 500)
      (Location.poi "Yankee Stadium" "New York")).isPlausible = true :=
  (claim_time_hour_bands ⟨1000000, 0, fun _ => 20⟩ 500
    (Location.poi "Yankee Stadium" "New York")
    (by decide) (by decide)).2.2

/-- C9: the engine invokes the spam analyzer with no submitter id, so the
burst check contributes no risk (the spam risk signal is exactly the
capped sum of the five submitter-independent checks), the per-submitter
history is never appended to, and of the spam state only the
text-fingerprint occurrence count is updated. -/
theorem claim_engine_no_burst (st : EngineState) (env : TimeEnv)
    (req : ValidationRequest) :
    (ScoringEngine.validate st env req).snd.spam.submissionHistory
      = st.spam.submissionHistory
    ∧ (ScoringEngine.validate st env req).snd.spam.textHashes
      = alistSet st.spam.textHashes (SpamAnalyzer.hashText req.text)
          (SpamAnalyzer.duplicateCount st.spam req.text + 1)
    ∧ (ScoringEngine.validate st env req).fst.signals.spam_risk
      = roundTo4 (min 1
          (SpamAnalyzer.duplicateRisk st.spam req.text
            + SpamAnalyzer.shortTextRisk req.text
            + SpamAnalyzer.hashtagRisk req.text
            + SpamAnalyzer.urlRisk req.text
            + SpamAnalyzer.detectCopyPaste req.text)) := by
  have hb : SpamAnalyzer.burstRisk st.spam none req.timestamp = 0 := rfl
  have hrisk : (SpamAnalyzer.analyze st.spam req.text none req.timestamp).fst.risk
      = min 1
        (SpamAnalyzer.duplicateRisk st.spam req.text
          + SpamAnalyzer.shortTextRisk req.text
          + SpamAnalyzer.hashtagRisk req.text
          + SpamAnalyzer.urlRisk req.text
          + SpamAnalyzer.detectCopyPaste req.text) := by
    show min 1
        (SpamAnalyzer.duplicateRisk st.spam req.text
          + SpamAnalyzer.shortTextRisk req.text
          + SpamAnalyzer.hashtagRisk req.text
          + SpamAnalyzer.urlRisk req.text
          + SpamAnalyzer.burstRisk st.spam none req.timestamp
          + SpamAnalyzer.detectCopyPaste req.text) = _
    rw [hb, add_zero]
  refine ⟨?_, ?_, ?_⟩
  · rw [ScoringEngine.validate_state_eq]
    show (SpamAnalyzer.recordSubmission st.spam req.text none
      req.timestamp).submissionHistory = st.spam.submissionHistory
    unfold SpamAnalyzer.recordSubmission
    rcases req.timestamp with _ | ts <;> rfl
  · rw [ScoringEngine.validate_state_eq]
    show (SpamAnalyzer.recordSubmission st.spam req.text none
      req.timestamp).textHashes = _
    unfold SpamAnalyzer.recordSubmission SpamAnalyzer.duplicateCount
    rcases req.timestamp with _ | ts <;> rfl
  · rw [ScoringEngine.validate_signals_eq]
    show roundTo4
      (SpamAnalyzer.analyze st.spam req.text none req.timestamp).fst.risk = _
    rw [hrisk]

theorem SpamAnalyzer.analyze_risk_eq (st : SpamState) (t : String)
    (u : Option String) (ts : Option ℤ) :
    (SpamAnalyzer.analyze st t u ts).fst.risk
      = min 1 (SpamAnalyzer.duplicateRisk st t + SpamAnalyzer.shortTextRisk t
          + SpamAnalyzer.hashtagRisk t + SpamAnalyzer.urlRisk t
          + SpamAnalyzer.burstRisk st u ts + SpamAnalyzer.detectCopyPaste t) :=
  rfl

theorem SpamAnalyzer.duplicateRisk_pos (st : SpamState) (t : String)
    (h : 0 < SpamAnalyzer.duplicateCount st t) :
    SpamAnalyzer.duplicateRisk st t = 0.4 := by
  unfold SpamAnalyzer.duplicateRisk
  rw [if_pos h]

theorem SpamAnalyzer.analyze_reasons_dup (st : SpamState) (t : String)
    (u : Option String) (ts : Option ℤ)
    (h : 0 < SpamAnalyzer.duplicateCount st t) :
    ("Text appears " ++ toString (SpamAnalyzer.duplicateCount st t)
        ++ " time(s) before") ∈ (SpamAnalyzer.analyze st t u ts).fst.reasons := by
  unfold SpamAnalyzer.analyze
  dsimp only
  rw [if_pos h]
  simp

theorem SpamAnalyzer.recordSubmission_count (st : SpamState) (t : String)
    (u : Option String) (ts : Option ℤ) :
    (alistGet (SpamAnalyzer.recordSubmission st t u ts).textHashes
        (SpamAnalyzer.hashText t)).getD 0
      = (alistGet st.textHashes (SpamAnalyzer.hashText t)).getD 0 + 1 := by
  unfold SpamAnalyzer.recordSubmission
  rcases u with _ | uid <;> rcases ts with _ | time <;>
    (dsimp only; rw [alistGet_set_self]; rfl)

/-- C3: an image whose fingerprint was seen before under a different
location key is flagged as duplicate with its score multiplied by the
fixed 0.3 penalty; a fingerprint seen for the first time, or only ever at
the current location key, is not flagged; and submitting the identical
fingerprint (fresh in the index) at two distinct location keys marks the
second submission as duplicate at 0.3 times the first score. -/
theorem claim_image_duplicate_law (st : ImageState) (img : Image)
    (loc : Location) (h : String)
    (hh : ImageAnalyzer.computeImageHash img = some h) :
    ((alistGet st h).getD [] ≠ [] →
      ((alistGet st h).getD []).contains (ImageAnalyzer.getLocationKey loc)
          = false →
      (ImageAnalyzer.analyze st (some img) loc).fst.isDuplicate = true
        ∧ (ImageAnalyzer.analyze st (some img) loc).fst.score = 0.5 * 0.3)
    ∧ ((alistGet st h).getD [] = [] →
      (ImageAnalyzer.analyze st (some img) loc).fst.isDuplicate = false
        ∧ (ImageAnalyzer.analyze st (some img) loc).fst.score = 0.5)
    ∧ (((alistGet st h).getD []).contains (ImageAnalyzer.getLocationKey loc)
          = true →
      (ImageAnalyzer.analyze st (some img) loc).fst.isDuplicate = false
        ∧ (ImageAnalyzer.analyze st (some img) loc).fst.score = 0.5)
    ∧ (∀ loc2 : Location, alistGet st h = none →
        ImageAnalyzer.getLocationKey loc2 ≠ ImageAnalyzer.getLocationKey loc →
        (ImageAnalyzer.analyze ((ImageAnalyzer.analyze st (some img) loc).snd)
            (some img) loc2).fst.isDuplicate = true
          ∧ (ImageAnalyzer.analyze ((ImageAnalyzer.analyze st (some img) loc).snd)
              (some img) loc2).fst.score
            = 0.3 * (ImageAnalyzer.analyze st (some img) loc).fst.score
          ∧ (ImageAnalyzer.analyze st (some img) loc).fst.isDuplicate = false) := by
  have hana : ∀ (s : ImageState) (l : Location),
      ImageAnalyzer.analyze s (some img) l
        = ImageAnalyzer.analyzeCore s img (some h) l :=
    fun s l => ImageAnalyzer.analyze_some_eq s img h l hh
  refine ⟨?_, ?_, ?_, ?_⟩
  · intro hne hcon
    have hemp : ((alistGet st h).getD []).isEmpty = false := by
      cases hlist : (alistGet st h).getD [] with
      | nil => exact absurd hlist hne
      | cons a as => rfl
    have hdup : ImageAnalyzer.checkDuplicate st (some h) loc = true := by
      rw [ImageAnalyzer.checkDuplicate_some_eq, hemp, hcon]
      rfl
    rw [hana]
    refine ⟨?_, ?_⟩
    · rw [(ImageAnalyzer.analyzeCore_spec st img h loc).1, hdup]
    · rw [(ImageAnalyzer.analyzeCore_spec st img h loc).2.1, hdup]
      rfl
  · intro hnil
    have hdup : ImageAnalyzer.checkDuplicate st (some h) loc = false := by
      rw [ImageAnalyzer.checkDuplicate_some_eq, hnil]
      rfl
    rw [hana]
    exact ⟨by rw [(ImageAnalyzer.analyzeCore_spec st img h loc).1, hdup],
      by rw [(ImageAnalyzer.analyzeCore_spec st img h loc).2.1, hdup]; rfl⟩
  · intro hcon
    have hdup : ImageAnalyzer.checkDuplicate st (some h) loc = false := by
      rw [ImageAnalyzer.checkDuplicate_some_eq, hcon]
      cases hlist : ((alistGet st h).getD []).isEmpty <;> rfl
    rw [hana]
    exact ⟨by rw [(ImageAnalyzer.analyzeCore_spec st img h loc).1, hdup],
      by rw [(ImageAnalyzer.analyzeCore_spec st img h loc).2.1, hdup]; rfl⟩
  · intro loc2 hnone hkey
    have hget : (alistGet st h).getD [] = ([] : List String) := by
      rw [hnone]; rfl
    have hdup1 : ImageAnalyzer.checkDuplicate st (some h) loc = false := by
      rw [ImageAnalyzer.checkDuplicate_some_eq, hget]
      rfl
    have hstore : ImageAnalyzer.storeImageHash st (some h) loc
        = alistSet st h [ImageAnalyzer.getLocationKey loc] := by
      unfold ImageAnalyzer.storeImageHash
      dsimp only
      rw [hget]
      rfl
    have hst1 : (ImageAnalyzer.analyze st (some img) loc).snd
        = alistSet st h [ImageAnalyzer.getLocationKey loc] := by
      rw [hana, (ImageAnalyzer.analyzeCore_spec st img h loc).2.2, hstore]
    have hget1 : (alistGet (alistSet st h [ImageAnalyzer.getLocationKey loc]) h).getD []
        = [ImageAnalyzer.getLocationKey loc] := by
      rw [alistGet_set_self]
      rfl
    have hcon1 : ([ImageAnalyzer.getLocationKey loc]).contains
        (ImageAnalyzer.getLocationKey loc2) = false := by
      simp [List.contains, hkey]
    have hdup2 : ImageAnalyzer.checkDuplicate
        (alistSet st h [ImageAnalyzer.getLocationKey loc]) (some h) loc2 = true := by
      rw [ImageAnalyzer.checkDuplicate_some_eq, hget1, hcon1]
      rfl
    refine ⟨?_, ?_, ?_⟩
    · rw [hst1, hana, (ImageAnalyzer.analyzeCore_spec _ img h loc2).1, hdup2]
    · rw [hst1, hana, hana,
        (ImageAnalyzer.analyzeCore_spec _ img h loc2).2.1, hdup2,
        (ImageAnalyzer.analyzeCore_spec st img h loc).2.1, hdup1]
      norm_num
    · rw [hana, (ImageAnalyzer.analyzeCore_spec st img h loc).1, hdup1]

/-- C3 witness: the same base64 image at two distinct POIs, starting from
the empty index: the second submission is flagged and scored 0.3 times the
first. -/
theorem claim_image_duplicate_law_witness :
    (ImageAnalyzer.analyze
        ((ImageAnalyzer.analyze [] (some (Image.base64 "photo-123"))
          (Location.poi "A" "B")).snd)
        (some (Image.base64 "photo-123")) (Location.poi "C" "D")).fst.isDuplicate
      = true
    ∧ (ImageAnalyzer.analyze
        ((ImageAnalyzer.analyze [] (some (Image.base64 "photo-123"))
          (Location.poi "A" "B")).snd)
        (some (Image.base64 "photo-123")) (Location.poi "C" "D")).fst.score
      = 0.3 * (ImageAnalyzer.analyze [] (some (Image.base64 "photo-123"))
          (Location.poi "A" "B")).fst.score := by
  have hlaw := (claim_image_duplicate_law [] (Image.base64 "photo-123")
    (Location.poi "A" "B") "photo-123" (by rfl)).2.2.2
    (Location.poi "C" "D") (by rfl) (by decide)
  exact ⟨hlaw.1, hlaw.2.1⟩

/-- C5: a text whose normalized fingerprint has a positive prior count in
the duplicate-text index incurs the fixed 0.4 duplicate risk and the
reason line reporting the prior count; the record step always increments
the fingerprint count, regardless of detected risk; hence for any two
successive analyze calls over texts with equal fingerprints the second
call incurs the duplicate-text risk. -/
theorem claim_spam_duplicate_tracking (st : SpamState) (t : String)
    (u : Option String) (ts : Option ℤ) :
    (0 < SpamAnalyzer.duplicateCount st t →
      (SpamAnalyzer.analyze st t u ts).fst.risk
        = min 1 (0.4 + SpamAnalyzer.shortTextRisk t + SpamAnalyzer.hashtagRisk t
            + SpamAnalyzer.urlRisk t + SpamAnalyzer.burstRisk st u ts
            + SpamAnalyzer.detectCopyPaste t)
      ∧ ("Text appears " ++ toString (SpamAnalyzer.duplicateCount st t)
          ++ " time(s) before") ∈ (SpamAnalyzer.analyze st t u ts).fst.reasons)
    ∧ SpamAnalyzer.duplicateCount (SpamAnalyzer.analyze st t u ts).snd t
        = SpamAnalyzer.duplicateCount st t + 1
    ∧ (∀ (t2 : String) (u2 : Option String) (ts2 : Option ℤ),
        SpamAnalyzer.hashText t2 = SpamAnalyzer.hashText t →
        (2 / 5 : ℚ) ≤ (SpamAnalyzer.analyze (SpamAnalyzer.analyze st t u ts).snd
            t2 u2 ts2).fst.risk
        ∧ ("Text appears " ++ toString (SpamAnalyzer.duplicateCount st t + 1)
            ++ " time(s) before")
          ∈ (SpamAnalyzer.analyze (SpamAnalyzer.analyze st t u ts).snd
              t2 u2 ts2).fst.reasons) := by
  have hsnd : SpamAnalyzer.duplicateCount (SpamAnalyzer.analyze st t u ts).snd t
      = SpamAnalyzer.duplicateCount st t + 1 := by
    show SpamAnalyzer.duplicateCount (SpamAnalyzer.recordSubmission st t u ts) t
      = _
    unfold SpamAnalyzer.duplicateCount
    exact SpamAnalyzer.recordSubmission_count st t u ts
  refine ⟨fun h => ⟨?_, SpamAnalyzer.analyze_reasons_dup st t u ts h⟩, hsnd,
    fun t2 u2 ts2 hteq => ?_⟩
  · rw [SpamAnalyzer.analyze_risk_eq, SpamAnalyzer.duplicateRisk_pos st t h]
  · have hc2 : SpamAnalyzer.duplicateCount (SpamAnalyzer.analyze st t u ts).snd t2
        = SpamAnalyzer.duplicateCount st t + 1 := by
      unfold SpamAnalyzer.duplicateCount
      rw [hteq]
      exact hsnd
    have hpos : 0 < SpamAnalyzer.duplicateCount
        (SpamAnalyzer.analyze st t u ts).snd t2 := by
      rw [hc2]; exact Nat.succ_pos _
    constructor
    · rw [SpamAnalyzer.analyze_risk_eq,
        SpamAnalyzer.duplicateRisk_pos _ _ hpos]
      refine le_min (by norm_num) ?_
      have h2 := SpamAnalyzer.shortTextRisk_nonneg t2
      have h3 := SpamAnalyzer.hashtagRisk_nonneg t2
      have h4 := SpamAnalyzer.urlRisk_nonneg t2
      have h5 := SpamAnalyzer.burstRisk_nonneg
        (SpamAnalyzer.analyze st t u ts).snd u2 ts2
      have h6 := SpamAnalyzer.detectCopyPaste_nonneg t2
      norm_num
      linarith
    · have := SpamAnalyzer.analyze_reasons_dup
        (SpamAnalyzer.analyze st t u ts).snd t2 u2 ts2 hpos
      rwa [hc2] at this

/-- C5 witness: with one prior occurrence of the fingerprint of the text
in the index, the duplicate reason is reported, and a successive call with
an equal-fingerprint text incurs risk at least 0.4. -/
theorem claim_spam_duplicate_tracking_witness :
    ("Text appears " ++ toString (SpamAnalyzer.duplicateCount
        ⟨[("great place", 1)], []⟩ "Great place!") ++ " time(s) before")
      ∈ (SpamAnalyzer.analyze ⟨[("great place", 1)], []⟩ "Great place!"
          none none).fst.reasons
    ∧ (2 / 5 : ℚ) ≤ (SpamAnalyzer.analyze
        (SpamAnalyzer.analyze ⟨[("great place", 1)], []⟩ "Great place!"
          none none).snd "GREAT PLACE" none none).fst.risk := by
  have h := claim_spam_duplicate_tracking ⟨[("great place", 1)], []⟩
    "Great place!" none none
  exact ⟨(h.1 (by decide)).2, (h.2.2 "GREAT PLACE" none none (by decide)).1⟩

/-- C7 (code-bug evidence): the text `Live at MSG` contains the all-caps
token `MSG`, yet the analyzer extracts no entities from it — `analyze`
lower-cases the text before calling `extractEntities`, so the
abbreviation pattern, which only matches capital letters, can never fire
on the input it receives. -/
theorem claim_allcaps_entities_dropped :
    "MSG" ∈ allCapsTokens "Live at MSG"
    ∧ allCapsTokens (jsLower "Live at MSG") = []
    ∧ (TextAnalyzer.analyze "Live at MSG"
        (Location.poi "Madison Square Garden" "New York")).entities = [] :=
  ⟨by decide, by decide, by decide⟩

end ProofOfPlace
